import Mathlib

/-!
Verification of the recipe-resolver microservice (pageza/recipe-resolver-ms).

The development shallowly embeds the Go source:
* `nlp` package (Tokenize, JaccardSimilarity) — tokenization and set-overlap
  similarity.  Go computes the ratio in float64; the embedding uses exact
  rationals, which agree with the float computation on the comparisons the
  program makes (small integer numerators and denominators).
* `generation` package (stripCodeFences, GenerateRecipe) — the outbound HTTP
  exchange is a parameter of the embedded function (an `Except` value standing
  for the transport outcome), and Go's `encoding/json` decoding into the
  response structs is embedded as an executable JSON parser plus field
  decoders that follow `json.Unmarshal` semantics (case-insensitive field
  match, later duplicate keys override, `null` leaves a field at its previous
  value, type mismatch is an error).  Request construction (prompt text,
  headers) has no failure mode observable at this boundary and is not
  modelled.
* `main` package (Recipe, newRecipe, recipesDB, convertGenRecipe,
  resolveRecipe) — `uuid.New()` and `time.Now()` are value parameters; the
  in-process corpus is threaded through `resolveRecipe` explicitly so that
  frame properties (the corpus is never mutated) are statable.  Go struct
  assignment copies the struct, which the embedding reflects by binding a new
  local value wherever the source assigns one.

String functions model the Go standard library on the ASCII range (the corpus
titles, markers and JSON syntax involved are all ASCII).
-/

namespace RecipeResolver

/-! ## Go string primitives (ASCII model) -/

/-- Whitespace predicate matching Go `unicode.IsSpace` on the ASCII range
(space, tab, newline, vertical tab, form feed, carriage return). -/
def goIsSpace (c : Char) : Bool :=
  c == ' ' || c == '\t' || c == '\n' || c == '\x0b' || c == '\x0c' || c == '\r'

/-- ASCII model of Go `strings.ToLower` on a single character. -/
def asciiLowerChar (c : Char) : Char :=
  if 'A' ≤ c ∧ c ≤ 'Z' then Char.ofNat (c.toNat + 32) else c

/-- ASCII model of Go `strings.ToLower`. -/
def asciiLower (s : String) : String := String.mk (s.toList.map asciiLowerChar)

/-- Model of Go `strings.EqualFold` (ASCII case folding). -/
def goEqualFold (a b : String) : Bool := asciiLower a == asciiLower b

/-- Splitter loop behind `goFields`: accumulates the current word (reversed). -/
def fieldsAux : List Char → List Char → List String
  | [], [] => []
  | [], acc => [String.mk acc.reverse]
  | c :: cs, acc =>
    if goIsSpace c then
      match acc with
      | [] => fieldsAux cs []
      | _ => String.mk acc.reverse :: fieldsAux cs []
    else fieldsAux cs (c :: acc)

/-- Model of Go `strings.Fields`: split around runs of whitespace. -/
def goFields (s : String) : List String := fieldsAux s.toList []

/-- Trim `goIsSpace` characters from both ends of a character list
(Go `strings.TrimSpace`). -/
def trimChars (cs : List Char) : List Char :=
  ((cs.dropWhile goIsSpace).reverse.dropWhile goIsSpace).reverse

/-- Model of Go `strings.TrimSpace`. -/
def goTrimSpace (s : String) : String := String.mk (trimChars s.toList)

/-! ## `nlp` package -/

/-- `nlp.Tokenize`: lowercase the string and split it into words. -/
def Tokenize (s : String) : List String := goFields (asciiLower s)

/-- The token set of a string: `Tokenize` with duplicates collapsed, as built
by the `setA`/`setB` boolean maps in `nlp.JaccardSimilarity`. -/
def tokenSet (s : String) : Finset String := (Tokenize s).toFinset

/-- `nlp.JaccardSimilarity`: the intersection count is computed by filtering
`setA` for membership in `setB` (the counting loop of the source), the union
set joins both token sets, and the result is intersection over union with the
empty-union case mapped to 0. -/
def JaccardSimilarity (a b : String) : ℚ :=
  let setA := tokenSet a
  let setB := tokenSet b
  let intersectionCount := (setA.filter (fun t => t ∈ setB)).card
  let unionSet := setA ∪ setB
  if unionSet.card = 0 then 0 else (intersectionCount : ℚ) / (unionSet.card : ℚ)

/-- Spec-side restatement of the similarity contract (from the spec's words):
the ratio of the intersection size to the union size of the two sets, with an
empty union giving 0. -/
def jaccardOfSets (A B : Finset String) : ℚ :=
  if A ∪ B = ∅ then 0 else ((A ∩ B).card : ℚ) / ((A ∪ B).card : ℚ)

/-! ## Data model -/

/-- A JSON-like open value, modelling Go `interface\x7b\x7d` data produced by
`encoding/json` (the `nutritional_info` field has no fixed schema). -/
inductive JVal where
  | null : JVal
  | bool (b : Bool) : JVal
  | num (q : ℚ) : JVal
  | str (s : String) : JVal
  | arr (elems : List JVal) : JVal
  | obj (members : List (String × JVal)) : JVal

/-- A parsed Go `time.Time` at the granularity the program observes: the
broken-down fields produced by `time.Parse` plus the zone offset. -/
structure GoTime where
  year : Nat
  month : Nat
  day : Nat
  hour : Nat
  minute : Nat
  second : Nat
  nanos : Nat
  offsetMinutes : Int
deriving DecidableEq, Repr

/-- The zero `time.Time` (January 1, year 1, 00:00:00 UTC), which
`time.Parse` returns alongside an error when parsing fails. -/
def goZeroTime : GoTime :=
  { year := 1, month := 1, day := 1, hour := 0, minute := 0, second := 0,
    nanos := 0, offsetMinutes := 0 }

/-- `main.Recipe`: the canonical recipe record (timestamps are structured). -/
structure Recipe where
  id : String
  title : String
  ingredients : List String
  steps : List String
  nutritionalInfo : JVal
  allergyDisclaimer : String
  appliances : List String
  createdAt : GoTime
  updatedAt : GoTime

/-- `generation.Recipe`: the provider-side recipe shape (timestamps are raw
text). -/
structure GenRecipe where
  id : String
  title : String
  ingredients : List String
  steps : List String
  nutritionalInfo : JVal
  allergyDisclaimer : String
  appliances : List String
  createdAt : String
  updatedAt : String

/-- The zero value of `main.Recipe` (Go `var best Recipe`). -/
def zeroRecipe : Recipe :=
  { id := "", title := "", ingredients := [], steps := [], nutritionalInfo := JVal.null,
    allergyDisclaimer := "", appliances := [], createdAt := goZeroTime,
    updatedAt := goZeroTime }

/-- The zero value of `generation.Recipe`. -/
def zeroGenRecipe : GenRecipe :=
  { id := "", title := "", ingredients := [], steps := [], nutritionalInfo := JVal.null,
    allergyDisclaimer := "", appliances := [], createdAt := "", updatedAt := "" }

/-- `main.newRecipe`: builds a `Recipe` from the given details.  The uuid and
the current time are effects in Go; here they are the `id` and `now`
parameters, used for both timestamps exactly as in the source. -/
def newRecipe (id : String) (now : GoTime) (title : String)
    (ingredients steps : List String) (nutritionalInfo : JVal)
    (allergyDisclaimer : String) (appliances : List String) : Recipe :=
  { id := id, title := title, ingredients := ingredients, steps := steps,
    nutritionalInfo := nutritionalInfo, allergyDisclaimer := allergyDisclaimer,
    appliances := appliances, createdAt := now, updatedAt := now }

/-- `main.recipesDB`: the fixed two-entry corpus, parametrized by the uuids
and creation instants produced at startup. -/
def recipesDB (id1 id2 : String) (t1 t2 : GoTime) : List Recipe :=
  [newRecipe id1 t1 ("Spaghetti Bolognese")
      ["spaghetti", "tomato sauce", "ground beef", "onion", "garlic"]
      ["Boil pasta", "Cook sauce", "Mix and serve"]
      (JVal.obj [("calories", JVal.num 400)])
      ("Contains gluten")
      ["stove"],
   newRecipe id2 t2 ("Chicken Salad")
      ["chicken", "lettuce", "tomatoes", "cucumber", "dressing"]
      ["Grill chicken", "Mix vegetables", "Add dressing"]
      (JVal.obj [("calories", JVal.num 300)])
      ("None")
      ["grill"]]

/-! ## Timestamp parsing (Go `time.Parse` with the two layouts used) -/

/-- Parse exactly `k` leading digits. -/
def parseFixedNat (k : Nat) (cs : List Char) : Option (Nat × List Char) :=
  let ds := cs.take k
  if ds.length = k && ds.all Char.isDigit then
    some (ds.foldl (fun n c => 10 * n + (c.toNat - 48)) 0, cs.drop k)
  else none

/-- Require character `c` at the head. -/
def expectChar (c : Char) : List Char → Option (List Char)
  | x :: xs => if x = c then some xs else none
  | [] => none

def isLeapYear (y : Nat) : Bool := y % 4 = 0 && (y % 100 ≠ 0 || y % 400 = 0)

def daysInMonth (y m : Nat) : Nat :=
  if m = 2 then (if isLeapYear y then 29 else 28)
  else if m = 4 || m = 6 || m = 9 || m = 11 then 30
  else 31

/-- Parse the `2006-01-02` date portion, validating month and day ranges as
`time.Parse` does. -/
def parseDatePart (cs : List Char) : Option ((Nat × Nat × Nat) × List Char) := do
  let (y, cs1) ← parseFixedNat 4 cs
  let cs2 ← expectChar ('-') cs1
  let (m, cs3) ← parseFixedNat 2 cs2
  let cs4 ← expectChar ('-') cs3
  let (d, cs5) ← parseFixedNat 2 cs4
  if 1 ≤ m && m ≤ 12 && 1 ≤ d && d ≤ daysInMonth y m then
    some ((y, m, d), cs5)
  else none

/-- Go `time.Parse("2006-01-02", s)`: the bare-date layout must consume the
whole input; missing clock fields default to zero, zone to UTC. -/
def parseDateOnly (s : String) : Option GoTime :=
  match parseDatePart s.toList with
  | some ((y, m, d), []) =>
    some { year := y, month := m, day := d, hour := 0, minute := 0, second := 0,
           nanos := 0, offsetMinutes := 0 }
  | _ => none

/-- Fractional-second digits after the decimal point, as nanoseconds. -/
def parseFracNanos (cs : List Char) : Option (Nat × List Char) :=
  let ds := cs.takeWhile Char.isDigit
  if ds = [] then none
  else
    let ds9 := ds.take 9 ++ List.replicate (9 - ds.length) ('0')
    some (ds9.foldl (fun n c => 10 * n + (c.toNat - 48)) 0, cs.drop ds.length)

/-- The `Z07:00` zone portion: `Z` or a signed `hh:mm` offset in minutes. -/
def parseZonePart (cs : List Char) : Option (Int × List Char) :=
  match cs with
  | 'Z' :: rest => some (0, rest)
  | '+' :: rest => parseSignedZone 1 rest
  | '-' :: rest => parseSignedZone (-1) rest
  | _ => none
where
  parseSignedZone (sign : Int) (cs : List Char) : Option (Int × List Char) := do
    let (h, cs1) ← parseFixedNat 2 cs
    let cs2 ← expectChar (':') cs1
    let (m, cs3) ← parseFixedNat 2 cs2
    if h ≤ 23 && m ≤ 59 then some (sign * (60 * h + m), cs3) else none

/-- Go `time.Parse(time.RFC3339, s)`: full date, `T`, clock (with an optional
fractional second, accepted by `Parse` even though the layout omits it), and a
zone, consuming the whole input; field ranges are validated. -/
def parseRFC3339 (s : String) : Option GoTime := do
  let ((y, mo, d), cs1) ← parseDatePart s.toList
  let cs2 ← expectChar ('T') cs1
  let (hh, cs3) ← parseFixedNat 2 cs2
  let cs4 ← expectChar (':') cs3
  let (mi, cs5) ← parseFixedNat 2 cs4
  let cs6 ← expectChar (':') cs5
  let (ss, cs7) ← parseFixedNat 2 cs6
  if hh ≤ 23 && mi ≤ 59 && ss ≤ 59 then
    let (ns, cs8) ← match cs7 with
      | '.' :: cs7a => parseFracNanos cs7a
      | _ => some (0, cs7)
    let (off, cs9) ← parseZonePart cs8
    if cs9 = [] then
      some { year := y, month := mo, day := d, hour := hh, minute := mi,
             second := ss, nanos := ns, offsetMinutes := off }
    else none
  else none

/-! ## `main` package: conversion and resolution -/

/-- `main.convertGenRecipe`: normalize a generated recipe.  Each timestamp
field first tries RFC3339; on error Go reuses the variable with the bare-date
parse whose error is discarded, so a double failure leaves the zero time. -/
def convertGenRecipe (r : GenRecipe) : Recipe :=
  let createdAt := match parseRFC3339 r.createdAt with
    | some t => t
    | none => (parseDateOnly r.createdAt).getD goZeroTime
  let updatedAt := match parseRFC3339 r.updatedAt with
    | some t => t
    | none => (parseDateOnly r.updatedAt).getD goZeroTime
  { id := r.id, title := r.title, ingredients := r.ingredients, steps := r.steps,
    nutritionalInfo := r.nutritionalInfo, allergyDisclaimer := r.allergyDisclaimer,
    appliances := r.appliances, createdAt := createdAt, updatedAt := updatedAt }

/-- `main.convertGenRecipes`: element-wise conversion. -/
def convertGenRecipes (rs : List GenRecipe) : List Recipe :=
  rs.map convertGenRecipe

/-- The error taxonomy of the generation client, tagged with the spec's four
kinds; the payload carries the Go error message. -/
inductive GenError where
  | config (msg : String) : GenError
  | transport (msg : String) : GenError
  | upstream (status : String) : GenError
  | malformed (msg : String) : GenError

/-- The similarity threshold of `main.resolveRecipe` (`0.3`). -/
def similarityThreshold : ℚ := 3/10

/-- One step of the best-match scan in `main.resolveRecipe`: keep the
incumbent unless the new similarity is strictly greater. -/
def bestScanStep (query : String) (acc : ℚ × Recipe) (r : Recipe) : ℚ × Recipe :=
  let sim := JaccardSimilarity query r.title
  if sim > acc.1 then (sim, r) else acc

/-- The `bestSim`/`best` loop of `main.resolveRecipe`, starting from score 0
and the zero `Recipe`. -/
def bestScan (db : List Recipe) (query : String) : ℚ × Recipe :=
  db.foldl (bestScanStep query) (0, zeroRecipe)

/-- `main.resolveRecipe`.  The corpus is the `db` argument and is returned
unchanged next to the result (no statement of the body writes it: Go struct
assignment copies).  The generation call is the pre-computed `gen` outcome;
`freshId` and `now` are the uuid and clock effects of the fallback
`newRecipe` call. -/
def resolveRecipe (db : List Recipe) (gen : Except GenError (GenRecipe × List GenRecipe))
    (freshId : String) (now : GoTime) (query : String) :
    (Recipe × List Recipe) × List Recipe :=
  match db.find? (fun r => goEqualFold r.title query) with
  | some r => ((r, []), db)
  | none =>
    let best := bestScan db query
    if best.1 ≥ similarityThreshold then
      let bestR := best.2
      (({ bestR with title := bestR.title ++ " (Close Match)" }, []), db)
    else
      match gen with
      | Except.error _ =>
        ((newRecipe freshId now query [] [] (JVal.obj []) ("") [], []), db)
      | Except.ok (generated, alternatives) =>
        ((convertGenRecipe generated, convertGenRecipes alternatives), db)

/-! ## `generation` package: fence stripping -/

/-- The backtick character of the markdown fence marker. -/
def fenceChar : Char := Char.ofNat 96

/-- Go `strings.HasPrefix(s, "\x60\x60\x60")`. -/
def startsWithFence : List Char → Bool
  | a :: b :: c :: _ => a == fenceChar && b == fenceChar && c == fenceChar
  | _ => false

/-- Go `strings.Index(s, "\n")` (single-character needle). -/
def firstIdxOf (c : Char) : List Char → Option Nat
  | [] => none
  | x :: xs => if x == c then some 0 else (firstIdxOf c xs).map (fun i => i + 1)

/-- Go `strings.LastIndex(s, "\x60\x60\x60")`: index of the rightmost
occurrence of the fence marker, if any. -/
def lastFenceIdx : List Char → Option Nat
  | [] => none
  | c :: cs =>
    match lastFenceIdx cs with
    | some i => some (i + 1)
    | none => if startsWithFence (c :: cs) then some 0 else none

/-- `generation.stripCodeFences`: trim; if the result opens with a fence
marker, drop through the first newline (when one exists) and cut at the last
fence marker (when one exists); trim again. -/
def stripCodeFences (s : String) : String :=
  let cs := trimChars s.toList
  if startsWithFence cs then
    let cs1 := match firstIdxOf ('\n') cs with
      | some i => cs.drop (i + 1)
      | none => cs
    let cs2 := match lastFenceIdx cs1 with
      | some i => cs1.take i
      | none => cs1
    String.mk (trimChars cs2)
  else String.mk (trimChars cs)

/-! ## JSON values and parsing (Go `encoding/json` model) -/

/-- JSON insignificant whitespace. -/
def jsonSkipWs (cs : List Char) : List Char :=
  cs.dropWhile (fun c => c == ' ' || c == '\t' || c == '\n' || c == '\r')

/-- Hexadecimal digit value. -/
def hexVal (c : Char) : Option Nat :=
  if '0' ≤ c && c ≤ '9' then some (c.toNat - 48)
  else if 'a' ≤ c && c ≤ 'f' then some (c.toNat - 87)
  else if 'A' ≤ c && c ≤ 'F' then some (c.toNat - 55)
  else none

/-- Single-character JSON escapes. -/
def escChar : Char → Option Char
  | '"' => some ('"')
  | '\\' => some ('\\')
  | '/' => some ('/')
  | 'b' => some (Char.ofNat 8)
  | 'f' => some (Char.ofNat 12)
  | 'n' => some ('\n')
  | 'r' => some ('\r')
  | 't' => some ('\t')
  | _ => none

/-- Body of a JSON string after the opening quote, up to the closing quote.
Unpaired surrogate escapes decode to U+FFFD (pair recombination is not
modelled); raw control characters are rejected as in Go. -/
def parseStringBody : List Char → Option (List Char × List Char)
  | [] => none
  | '"' :: rest => some ([], rest)
  | '\\' :: 'u' :: a :: b :: c :: d :: rest =>
    (hexVal a).bind fun ha =>
      (hexVal b).bind fun hb =>
        (hexVal c).bind fun hc =>
          (hexVal d).bind fun hd =>
            let n := 4096 * ha + 256 * hb + 16 * hc + hd
            let ch := if 55296 ≤ n && n < 57344 then Char.ofNat 65533 else Char.ofNat n
            (parseStringBody rest).map fun p => (ch :: p.1, p.2)
  | '\\' :: e :: rest =>
    (escChar e).bind fun ch =>
      (parseStringBody rest).map fun p => (ch :: p.1, p.2)
  | c :: rest =>
    if c.toNat < 32 then none
    else (parseStringBody rest).map fun p => (c :: p.1, p.2)

/-- Decimal value of a digit list. -/
def digitsToNat (ds : List Char) : Nat :=
  ds.foldl (fun n c => 10 * n + (c.toNat - 48)) 0

/-- Optional `.digits` fraction of a JSON number. -/
def parseFracPart (cs : List Char) : Option (List Char × List Char) :=
  match cs with
  | '.' :: r =>
    let ds := r.takeWhile Char.isDigit
    if ds = [] then none else some (ds, r.drop ds.length)
  | _ => some ([], cs)

/-- Optional exponent of a JSON number. -/
def parseExpPart (cs : List Char) : Option (Int × List Char) :=
  match cs with
  | 'e' :: r => parseSignedExp r
  | 'E' :: r => parseSignedExp r
  | _ => some (0, cs)
where
  parseSignedExp (cs : List Char) : Option (Int × List Char) :=
    let (sgn, cs1) : Int × List Char := match cs with
      | '+' :: r => (1, r)
      | '-' :: r => (-1, r)
      | _ => (1, cs)
    let ds := cs1.takeWhile Char.isDigit
    if ds = [] then none
    else some (sgn * (digitsToNat ds : Int), cs1.drop ds.length)

/-- A JSON number (after any leading whitespace), with the JSON grammar's
no-leading-zero rule, as an exact rational. -/
def parseNumber (cs : List Char) : Option (ℚ × List Char) :=
  let (neg, cs1) : Bool × List Char := match cs with
    | '-' :: r => (true, r)
    | _ => (false, cs)
  let intDs := cs1.takeWhile Char.isDigit
  let cs2 := cs1.dropWhile Char.isDigit
  if intDs = [] then none
  else if intDs.length > 1 && intDs.headD ('0') == '0' then none
  else
    (parseFracPart cs2).bind fun fr =>
      (parseExpPart fr.2).bind fun ex =>
        let mant : ℚ := (digitsToNat (intDs ++ fr.1) : ℚ) / ((10 : ℚ) ^ fr.1.length)
        let value : ℚ := mant * (10 : ℚ) ^ ex.1
        some (if neg then -value else value, ex.2)

mutual

/-- One JSON value; the fuel bounds the recursion depth. -/
def parseVal : Nat → List Char → Option (JVal × List Char)
  | 0, _ => none
  | n + 1, cs =>
    match jsonSkipWs cs with
    | 'n' :: 'u' :: 'l' :: 'l' :: r => some (JVal.null, r)
    | 't' :: 'r' :: 'u' :: 'e' :: r => some (JVal.bool true, r)
    | 'f' :: 'a' :: 'l' :: 's' :: 'e' :: r => some (JVal.bool false, r)
    | '"' :: r => (parseStringBody r).map fun p => (JVal.str (String.mk p.1), p.2)
    | '[' :: r =>
      (match jsonSkipWs r with
       | ']' :: r2 => some (JVal.arr [], r2)
       | r2 => (parseElems n r2).map fun p => (JVal.arr p.1, p.2))
    | '{' :: r =>
      (match jsonSkipWs r with
       | '}' :: r2 => some (JVal.obj [], r2)
       | r2 => (parseMembers n r2).map fun p => (JVal.obj p.1, p.2))
    | cs2 => (parseNumber cs2).map fun p => (JVal.num p.1, p.2)

/-- Comma-separated array elements up to the closing bracket. -/
def parseElems : Nat → List Char → Option (List JVal × List Char)
  | 0, _ => none
  | n + 1, cs =>
    (parseVal n cs).bind fun pv =>
      match jsonSkipWs pv.2 with
      | ',' :: r2 => (parseElems n r2).map fun p => (pv.1 :: p.1, p.2)
      | ']' :: r2 => some ([pv.1], r2)
      | _ => none

/-- Comma-separated object members up to the closing brace. -/
def parseMembers : Nat → List Char → Option (List (String × JVal) × List Char)
  | 0, _ => none
  | n + 1, cs =>
    match jsonSkipWs cs with
    | '"' :: r =>
      (parseStringBody r).bind fun pk =>
        match jsonSkipWs pk.2 with
        | ':' :: r2 =>
          (parseVal n r2).bind fun pv =>
            (match jsonSkipWs pv.2 with
             | ',' :: r4 =>
               (parseMembers n r4).map fun p => ((String.mk pk.1, pv.1) :: p.1, p.2)
             | '}' :: r4 => some ([(String.mk pk.1, pv.1)], r4)
             | _ => none)
        | _ => none
    | _ => none

end

/-- Go `json.Decoder.Decode`: parse the first JSON value of the stream,
ignoring anything after it. -/
def parseJsonFirst (s : String) : Option JVal :=
  (parseVal (2 * s.length + 4) s.toList).map fun p => p.1

/-- Go `json.Unmarshal`: parse one JSON value and require only whitespace
after it. -/
def parseJsonStrict (s : String) : Option JVal :=
  match parseVal (2 * s.length + 4) s.toList with
  | some (v, rest) => if jsonSkipWs rest = [] then some v else none
  | none => none

/-! ## `encoding/json` struct decoding -/

/-- The values of every JSON member whose key matches the field name
(`json.Unmarshal` field matching is case-insensitive), in order; sequential
occurrences of a duplicated key each decode into the same field. -/
def fieldOccs (kvs : List (String × JVal)) (key : String) : List JVal :=
  (kvs.filter (fun kv => goEqualFold kv.1 key)).map (fun kv => kv.2)

/-- Decode successive occurrences into a string field: `null` keeps the
current value, a string replaces it, anything else is a type error. -/
def decodeStringOcc : String → List JVal → Option String
  | acc, [] => some acc
  | acc, JVal.null :: vs => decodeStringOcc acc vs
  | _, JVal.str s :: vs => decodeStringOcc s vs
  | _, _ => none

/-- Decode one array element into a string slot (zero value `""`). -/
def decodeStringElem : JVal → Option String
  | JVal.null => some ("")
  | JVal.str s => some s
  | _ => none

/-- Decode successive occurrences into a `[]string` field. -/
def decodeStringListOcc : List String → List JVal → Option (List String)
  | acc, [] => some acc
  | acc, JVal.null :: vs => decodeStringListOcc acc vs
  | _, JVal.arr es :: vs =>
    (es.mapM decodeStringElem).bind fun l => decodeStringListOcc l vs
  | _, _ => none

/-- Decode successive occurrences into an `interface\x7b\x7d` field: every
JSON value (including `null`) replaces the current one. -/
def decodeJValOcc : JVal → List JVal → JVal
  | acc, [] => acc
  | _, v :: vs => decodeJValOcc v vs

/-- Decode successive occurrences into an `int` field; non-integer numbers
are a type error as in Go. -/
def decodeIntOcc : Int → List JVal → Option Int
  | acc, [] => some acc
  | acc, JVal.null :: vs => decodeIntOcc acc vs
  | _, JVal.num q :: vs => if q.den = 1 then decodeIntOcc q.num vs else none
  | _, _ => none

/-- Decode a JSON object's members into a `generation.Recipe`, starting from
the current value `acc` (Go merges objects into the existing struct). -/
def decodeGenRecipeObj (acc : GenRecipe) (kvs : List (String × JVal)) :
    Option GenRecipe :=
  (decodeStringOcc acc.id (fieldOccs kvs ("id"))).bind fun id =>
    (decodeStringOcc acc.title (fieldOccs kvs ("title"))).bind fun title =>
      (decodeStringListOcc acc.ingredients (fieldOccs kvs ("ingredients"))).bind
        fun ingredients =>
        (decodeStringListOcc acc.steps (fieldOccs kvs ("steps"))).bind fun steps =>
          (decodeStringOcc acc.allergyDisclaimer
              (fieldOccs kvs ("allergy_disclaimer"))).bind fun allergyDisclaimer =>
            (decodeStringListOcc acc.appliances (fieldOccs kvs ("appliances"))).bind
              fun appliances =>
              (decodeStringOcc acc.createdAt (fieldOccs kvs ("created_at"))).bind
                fun createdAt =>
                (decodeStringOcc acc.updatedAt (fieldOccs kvs ("updated_at"))).bind
                  fun updatedAt =>
                  some { id := id, title := title, ingredients := ingredients,
                         steps := steps,
                         nutritionalInfo :=
                           decodeJValOcc acc.nutritionalInfo
                             (fieldOccs kvs ("nutritional_info")),
                         allergyDisclaimer := allergyDisclaimer,
                         appliances := appliances, createdAt := createdAt,
                         updatedAt := updatedAt }

/-- Decode one JSON value into a `generation.Recipe` slot. -/
def decodeGenRecipeInto (acc : GenRecipe) : JVal → Option GenRecipe
  | JVal.null => some acc
  | JVal.obj kvs => decodeGenRecipeObj acc kvs
  | _ => none

/-- Decode successive occurrences into a `generation.Recipe` field. -/
def decodeGenRecipeOcc : GenRecipe → List JVal → Option GenRecipe
  | acc, [] => some acc
  | acc, v :: vs => (decodeGenRecipeInto acc v).bind fun acc2 => decodeGenRecipeOcc acc2 vs

/-- Decode successive occurrences into a `[]generation.Recipe` field. -/
def decodeGenRecipeListOcc : List GenRecipe → List JVal → Option (List GenRecipe)
  | acc, [] => some acc
  | acc, JVal.null :: vs => decodeGenRecipeListOcc acc vs
  | _, JVal.arr es :: vs =>
    (es.mapM (decodeGenRecipeInto zeroGenRecipe)).bind fun l =>
      decodeGenRecipeListOcc l vs
  | _, _ => none

/-- `generation.LLMResponse`: the normalized generation envelope. -/
structure LLMResponse where
  primaryRecipe : GenRecipe
  alternativeRecipes : List GenRecipe

/-- The zero `LLMResponse`. -/
def zeroLLMResponse : LLMResponse :=
  { primaryRecipe := zeroGenRecipe, alternativeRecipes := [] }

/-- Unmarshal a JSON value into `LLMResponse` (top-level `null` is a no-op on
the zero struct; a non-object is a type error). -/
def decodeLLMResponseVal : JVal → Option LLMResponse
  | JVal.null => some zeroLLMResponse
  | JVal.obj kvs =>
    (decodeGenRecipeOcc zeroGenRecipe (fieldOccs kvs ("primary_recipe"))).bind
      fun p =>
      (decodeGenRecipeListOcc [] (fieldOccs kvs ("alternative_recipes"))).map
        fun alts => { primaryRecipe := p, alternativeRecipes := alts }
  | _ => none

/-- `json.Decoder.Decode(&llmResp)` on a body. -/
def decodeLLMResponseStream (s : String) : Option LLMResponse :=
  (parseJsonFirst s).bind decodeLLMResponseVal

/-- `json.Unmarshal(data, &llmResp)` on extracted content. -/
def decodeLLMResponseStrict (s : String) : Option LLMResponse :=
  (parseJsonStrict s).bind decodeLLMResponseVal

/-- `generation.DeepSeekMessage`. -/
structure DeepSeekMessage where
  role : String
  content : String

/-- The zero `DeepSeekMessage`. -/
def zeroDeepSeekMessage : DeepSeekMessage := { role := "", content := "" }

/-- `generation.DeepSeekChoice`. -/
structure DeepSeekChoice where
  index : Int
  message : DeepSeekMessage
  finishReason : String

/-- The zero `DeepSeekChoice`. -/
def zeroDeepSeekChoice : DeepSeekChoice :=
  { index := 0, message := zeroDeepSeekMessage, finishReason := "" }

/-- `generation.DeepSeekResponse`. -/
structure DeepSeekResponse where
  id : String
  object : String
  created : Int
  choices : List DeepSeekChoice
  usage : JVal

/-- The zero `DeepSeekResponse`. -/
def zeroDeepSeekResponse : DeepSeekResponse :=
  { id := "", object := "", created := 0, choices := [], usage := JVal.null }

/-- Decode a JSON object into a `DeepSeekMessage`. -/
def decodeDeepSeekMessageObj (acc : DeepSeekMessage) (kvs : List (String × JVal)) :
    Option DeepSeekMessage :=
  (decodeStringOcc acc.role (fieldOccs kvs ("role"))).bind fun role =>
    (decodeStringOcc acc.content (fieldOccs kvs ("content"))).map fun content =>
      { role := role, content := content }

/-- Decode one JSON value into a `DeepSeekMessage` slot. -/
def decodeDeepSeekMessageInto (acc : DeepSeekMessage) : JVal → Option DeepSeekMessage
  | JVal.null => some acc
  | JVal.obj kvs => decodeDeepSeekMessageObj acc kvs
  | _ => none

/-- Decode successive occurrences into a `DeepSeekMessage` field. -/
def decodeDeepSeekMessageOcc : DeepSeekMessage → List JVal → Option DeepSeekMessage
  | acc, [] => some acc
  | acc, v :: vs =>
    (decodeDeepSeekMessageInto acc v).bind fun acc2 => decodeDeepSeekMessageOcc acc2 vs

/-- Decode a JSON object into a `DeepSeekChoice`. -/
def decodeDeepSeekChoiceObj (acc : DeepSeekChoice) (kvs : List (String × JVal)) :
    Option DeepSeekChoice :=
  (decodeIntOcc acc.index (fieldOccs kvs ("index"))).bind fun index =>
    (decodeDeepSeekMessageOcc acc.message (fieldOccs kvs ("message"))).bind fun msg =>
      (decodeStringOcc acc.finishReason (fieldOccs kvs ("finish_reason"))).map
        fun finishReason =>
        { index := index, message := msg, finishReason := finishReason }

/-- Decode one JSON value into a `DeepSeekChoice` slot. -/
def decodeDeepSeekChoiceInto (acc : DeepSeekChoice) : JVal → Option DeepSeekChoice
  | JVal.null => some acc
  | JVal.obj kvs => decodeDeepSeekChoiceObj acc kvs
  | _ => none

/-- Decode successive occurrences into a `[]DeepSeekChoice` field. -/
def decodeDeepSeekChoiceListOcc :
    List DeepSeekChoice → List JVal → Option (List DeepSeekChoice)
  | acc, [] => some acc
  | acc, JVal.null :: vs => decodeDeepSeekChoiceListOcc acc vs
  | _, JVal.arr es :: vs =>
    (es.mapM (decodeDeepSeekChoiceInto zeroDeepSeekChoice)).bind fun l =>
      decodeDeepSeekChoiceListOcc l vs
  | _, _ => none

/-- Unmarshal a JSON value into `DeepSeekResponse`. -/
def decodeDeepSeekResponseVal : JVal → Option DeepSeekResponse
  | JVal.null => some zeroDeepSeekResponse
  | JVal.obj kvs =>
    (decodeStringOcc ("") (fieldOccs kvs ("id"))).bind fun id =>
      (decodeStringOcc ("") (fieldOccs kvs ("object"))).bind fun obj =>
        (decodeIntOcc 0 (fieldOccs kvs ("created"))).bind fun created =>
          (decodeDeepSeekChoiceListOcc [] (fieldOccs kvs ("choices"))).map
            fun choices =>
            { id := id, object := obj, created := created, choices := choices,
              usage := decodeJValOcc JVal.null (fieldOccs kvs ("usage")) }
  | _ => none

/-- `json.Decoder.Decode(&dsResp)` on a body. -/
def decodeDeepSeekResponseStream (s : String) : Option DeepSeekResponse :=
  (parseJsonFirst s).bind decodeDeepSeekResponseVal

/-! ## `generation.GenerateRecipe` -/

/-- The environment the generation client reads: `LLM_ENDPOINT`,
`DEEPSEEK_API_KEY`, `DEEPSEEK_MODEL` (empty string = unset). -/
structure GenEnv where
  llmEndpoint : String
  deepseekKey : String
  deepseekModel : String

/-- The observable outcome of the single HTTP round trip: a Go-side error
(transport failure or timeout), or a status and body. -/
structure HttpResponse where
  statusCode : Nat
  status : String
  body : String

/-- `generation.GenerateRecipe`: configuration check, one HTTP exchange
(`http` is its outcome; errors from `HTTPClient.Do`, including timeout expiry,
arrive as `Except.error`), status check, then the dialect-specific response
decoding selected by the presence of the DeepSeek credential.  The `query`
argument is embedded into the prompt in Go; request construction cannot fail
and is not modelled further. -/
def GenerateRecipe (env : GenEnv) (http : Except String HttpResponse)
    (query : String) : Except GenError (GenRecipe × List GenRecipe) :=
  if env.llmEndpoint = "" then
    Except.error (GenError.config ("LLM_ENDPOINT environment variable not set"))
  else
    match http with
    | Except.error e => Except.error (GenError.transport e)
    | Except.ok resp =>
      if resp.statusCode ≠ 200 then
        Except.error (GenError.upstream
          ("LLM endpoint returned non-200 status: " ++ resp.status))
      else if env.deepseekKey ≠ "" then
        match decodeDeepSeekResponseStream resp.body with
        | none => Except.error (GenError.malformed ("invalid DeepSeek response JSON"))
        | some dsResp =>
          match dsResp.choices with
          | [] => Except.error (GenError.malformed ("no choices in DeepSeek response"))
          | choice :: _ =>
            let cleanContent := stripCodeFences choice.message.content
            match decodeLLMResponseStrict cleanContent with
            | none =>
              Except.error (GenError.malformed ("invalid generation envelope JSON"))
            | some llmResp =>
              Except.ok (llmResp.primaryRecipe, llmResp.alternativeRecipes)
      else
        match decodeLLMResponseStream resp.body with
        | none => Except.error (GenError.malformed ("invalid generation envelope JSON"))
        | some llmResp => Except.ok (llmResp.primaryRecipe, llmResp.alternativeRecipes)

/-! ## Concrete values used by the witnesses -/

/-- The startup corpus at example uuids and instants, for the witnesses. -/
def corpusEx : List Recipe := recipesDB ("id-1") ("id-2") goZeroTime goZeroTime

/-- The first corpus entry at the witness parameters. -/
def spagEx : Recipe :=
  newRecipe ("id-1") goZeroTime ("Spaghetti Bolognese")
    ["spaghetti", "tomato sauce", "ground beef", "onion", "garlic"]
    ["Boil pasta", "Cook sauce", "Mix and serve"]
    (JVal.obj [("calories", JVal.num 400)]) ("Contains gluten") ["stove"]

/-- The second corpus entry at the witness parameters. -/
def chickEx : Recipe :=
  newRecipe ("id-2") goZeroTime ("Chicken Salad")
    ["chicken", "lettuce", "tomatoes", "cucumber", "dressing"]
    ["Grill chicken", "Mix vegetables", "Add dressing"]
    (JVal.obj [("calories", JVal.num 300)]) ("None") ["grill"]

/-- A generated recipe whose timestamp fields parse under neither layout. -/
def exGenRecipe : GenRecipe :=
  { id := "gen-1", title := "Generated Dish", ingredients := ["salt"],
    steps := ["mix"], nutritionalInfo := JVal.null, allergyDisclaimer := "None",
    appliances := ["oven"], createdAt := "not-a-timestamp", updatedAt := "2021-13-40" }

/-- A concrete generation-envelope JSON text. -/
def exEnvelopeJson : String :=
  "\x7b\"primary_recipe\":\x7b\"id\":\"p1\",\"title\":\"Soup\"," ++
  "\"ingredients\":[\"water\"],\"steps\":[\"boil\"],\"nutritional_info\":null," ++
  "\"allergy_disclaimer\":\"\",\"appliances\":[\"pot\"]," ++
  "\"created_at\":\"2024-01-02T03:04:05Z\",\"updated_at\":\"2024-01-02\"\x7d," ++
  "\"alternative_recipes\":[]\x7d"

/-- The recipe described by `exEnvelopeJson`. -/
def exEnvelopeRecipe : GenRecipe :=
  { id := "p1", title := "Soup", ingredients := ["water"], steps := ["boil"],
    nutritionalInfo := JVal.null, allergyDisclaimer := "",
    appliances := ["pot"], createdAt := "2024-01-02T03:04:05Z",
    updatedAt := "2024-01-02" }

/-! ## Similarity theorems -/

lemma filter_mem_card_eq_inter (A B : Finset String) :
    (A.filter (fun t => t ∈ B)).card = (A ∩ B).card :=
  congrArg Finset.card Finset.filter_mem_eq_inter

lemma jaccard_eq_jaccardOfSets (a b : String) :
    JaccardSimilarity a b = jaccardOfSets (tokenSet a) (tokenSet b) := by
  rw [JaccardSimilarity, jaccardOfSets, filter_mem_card_eq_inter]
  by_cases h : (tokenSet a ∪ tokenSet b) = ∅
  · simp [h]
  · rw [if_neg h, if_neg (by simpa [Finset.card_eq_zero] using h)]

/-- C4. `JaccardSimilarity` agrees with the spec's set-theoretic contract:
it equals |A ∩ B| / |A ∪ B| for the lowercased whitespace token sets A, B of
the two inputs (duplicates collapsed); it lies in [0, 1]; it is 0 when the
union is empty; and on "chicken salad" vs "salad with chicken" it is 2/3.
The function is total, so no error is possible. -/
theorem jaccard_similarity_contract :
    (∀ a b, JaccardSimilarity a b = jaccardOfSets (tokenSet a) (tokenSet b)) ∧
    (∀ a b, 0 ≤ JaccardSimilarity a b ∧ JaccardSimilarity a b ≤ 1) ∧
    (∀ a b, tokenSet a ∪ tokenSet b = ∅ → JaccardSimilarity a b = 0) ∧
    JaccardSimilarity ("chicken salad") ("salad with chicken") = 2/3 := by
  refine ⟨jaccard_eq_jaccardOfSets, ?_, ?_, ?_⟩
  · intro a b
    rw [jaccard_eq_jaccardOfSets, jaccardOfSets]
    by_cases h : (tokenSet a ∪ tokenSet b) = ∅
    · simp [h]
    · rw [if_neg h]
      have hcardpos : 0 < ((tokenSet a ∪ tokenSet b).card : ℚ) := by
        have := Finset.card_pos.mpr (Finset.nonempty_iff_ne_empty.mpr h)
        exact_mod_cast this
      constructor
      · positivity
      · rw [div_le_one hcardpos]
        exact_mod_cast Finset.card_le_card Finset.inter_subset_union
  · intro a b h
    rw [jaccard_eq_jaccardOfSets, jaccardOfSets, if_pos h]
  · have h1 : ((tokenSet ("chicken salad")).filter
        (fun t => t ∈ tokenSet ("salad with chicken"))).card = 2 := by decide
    have h2 : (tokenSet ("chicken salad") ∪ tokenSet ("salad with chicken")).card = 3 := by
      decide
    rw [JaccardSimilarity, h1, h2]
    norm_num

/-- Witness for C4: the empty-union clause applied at two empty inputs. -/
theorem jaccard_similarity_contract_witness : JaccardSimilarity ("") ("") = 0 :=
  jaccard_similarity_contract.2.2.1 ("") ("") (by decide)

/-- C7. `JaccardSimilarity` is symmetric. -/
theorem jaccard_similarity_symm (a b : String) :
    JaccardSimilarity a b = JaccardSimilarity b a := by
  rw [jaccard_eq_jaccardOfSets, jaccard_eq_jaccardOfSets, jaccardOfSets, jaccardOfSets,
    Finset.union_comm, Finset.inter_comm]

/-! ## Lemmas about the best-match scan -/

lemma bestScan_foldl_keep (q : String) (l : List Recipe) (b0 : ℚ) (r0 : Recipe)
    (h : ∀ r ∈ l, JaccardSimilarity q r.title ≤ b0) :
    l.foldl (bestScanStep q) (b0, r0) = (b0, r0) := by
  induction l with
  | nil => rfl
  | cons a l ih =>
    have ha : ¬ (JaccardSimilarity q a.title > b0) :=
      not_lt.mpr (h a (List.mem_cons_self a l))
    simp only [List.foldl_cons, bestScanStep, if_neg ha]
    exact ih fun r hr => h r (List.mem_cons_of_mem a hr)

lemma bestScan_foldl_lt (q : String) (l : List Recipe) (c : ℚ) :
    ∀ (b0 : ℚ) (r0 : Recipe), b0 < c →
    (∀ r ∈ l, JaccardSimilarity q r.title < c) →
    (l.foldl (bestScanStep q) (b0, r0)).1 < c := by
  induction l with
  | nil => intro b0 r0 hb _; exact hb
  | cons a l ih =>
    intro b0 r0 hb h
    by_cases hc : JaccardSimilarity q a.title > b0
    · simp only [List.foldl_cons, bestScanStep, if_pos hc]
      exact ih _ _ (h a (List.mem_cons_self a l)) fun r hr => h r (List.mem_cons_of_mem a hr)
    · simp only [List.foldl_cons, bestScanStep, if_neg hc]
      exact ih _ _ hb fun r hr => h r (List.mem_cons_of_mem a hr)

/-- The scan returns the first entry attaining the maximum similarity,
provided that maximum is positive. -/
lemma bestScan_first_max (q : String) (l1 l2 : List Recipe) (x : Recipe)
    (h1 : ∀ r ∈ l1, JaccardSimilarity q r.title < JaccardSimilarity q x.title)
    (h2 : ∀ r ∈ l2, JaccardSimilarity q r.title ≤ JaccardSimilarity q x.title)
    (hx : 0 < JaccardSimilarity q x.title) :
    bestScan (l1 ++ x :: l2) q = (JaccardSimilarity q x.title, x) := by
  unfold bestScan
  rw [List.foldl_append, List.foldl_cons]
  have hplt : (l1.foldl (bestScanStep q) (0, zeroRecipe)).1 < JaccardSimilarity q x.title :=
    bestScan_foldl_lt q l1 _ 0 zeroRecipe hx h1
  have hstep : bestScanStep q (l1.foldl (bestScanStep q) (0, zeroRecipe)) x =
      (JaccardSimilarity q x.title, x) := by
    simp only [bestScanStep, if_pos hplt]
  rw [hstep]
  exact bestScan_foldl_keep q l2 _ x h2

lemma find?_append_first (p : Recipe → Bool) (l1 l2 : List Recipe) (r : Recipe)
    (hpre : ∀ x ∈ l1, p x = false) (hr : p r = true) :
    (l1 ++ r :: l2).find? p = some r := by
  induction l1 with
  | nil => simpa using List.find?_cons_of_pos l2 hr
  | cons a l1 ih =>
    rw [List.cons_append,
      List.find?_cons_of_neg _ (by simp [hpre a (List.mem_cons_self a l1)])]
    exact ih fun x hx => hpre x (List.mem_cons_of_mem a hx)

/-! ## Claims about the resolution orchestrator -/

/-- C2. If some corpus entry's title equals the query case-insensitively, the
first such entry (everything before it fails the fold comparison) is returned
as primary, unmodified, with empty alternatives, and the corpus is returned
unchanged.  The conclusion does not depend on the generation outcome `gen`
nor on the fallback effects `freshId`/`now`, so the close-match and
generation tiers are not consulted. -/
theorem resolve_exact_match (gen : Except GenError (GenRecipe × List GenRecipe))
    (freshId : String) (now : GoTime) (query : String)
    (l1 l2 : List Recipe) (r : Recipe)
    (hpre : ∀ x ∈ l1, goEqualFold x.title query = false)
    (hr : goEqualFold r.title query = true) :
    resolveRecipe (l1 ++ r :: l2) gen freshId now query = ((r, []), l1 ++ r :: l2) := by
  unfold resolveRecipe
  rw [find?_append_first _ l1 l2 r hpre hr]

/-- C3. With no case-insensitive exact title match, if the entry `x` attains
the maximum similarity to the query (strictly above every earlier entry —
ties resolve to the first — and at least every later entry), and that maximum
meets the 0.3 threshold, the result is `x` with `" (Close Match)"` appended
to its title and empty alternatives. -/
theorem resolve_close_match (gen : Except GenError (GenRecipe × List GenRecipe))
    (freshId : String) (now : GoTime) (query : String)
    (l1 l2 : List Recipe) (x : Recipe)
    (hex : ∀ r ∈ l1 ++ x :: l2, goEqualFold r.title query = false)
    (h1 : ∀ r ∈ l1, JaccardSimilarity query r.title < JaccardSimilarity query x.title)
    (h2 : ∀ r ∈ l2, JaccardSimilarity query r.title ≤ JaccardSimilarity query x.title)
    (hthr : similarityThreshold ≤ JaccardSimilarity query x.title) :
    resolveRecipe (l1 ++ x :: l2) gen freshId now query =
      (({ x with title := x.title ++ " (Close Match)" }, []), l1 ++ x :: l2) := by
  have hfind : (l1 ++ x :: l2).find? (fun r => goEqualFold r.title query) = none :=
    List.find?_eq_none.mpr fun r hrm => by simp [hex r hrm]
  have hx0 : 0 < JaccardSimilarity query x.title :=
    lt_of_lt_of_le (by norm_num [similarityThreshold]) hthr
  unfold resolveRecipe
  rw [hfind]
  dsimp only
  rw [bestScan_first_max query l1 l2 x h1 h2 hx0, if_pos hthr]

/-- C1. With no exact match and every similarity strictly below the 0.3
threshold, a failing generation outcome is swallowed: for every generation
error the caller receives the fallback recipe (title is the query verbatim;
ingredients, steps and appliances empty; allergy disclaimer empty) with empty
alternatives — never an error. -/
theorem resolve_generation_fallback (freshId : String) (now : GoTime)
    (query : String) (db : List Recipe)
    (hex : ∀ r ∈ db, goEqualFold r.title query = false)
    (hsim : ∀ r ∈ db, JaccardSimilarity query r.title < similarityThreshold) :
    ∀ e : GenError,
      resolveRecipe db (Except.error e) freshId now query =
        ((newRecipe freshId now query [] [] (JVal.obj []) ("") [], []), db) ∧
      (resolveRecipe db (Except.error e) freshId now query).1.1.title = query ∧
      (resolveRecipe db (Except.error e) freshId now query).1.1.ingredients = [] ∧
      (resolveRecipe db (Except.error e) freshId now query).1.1.steps = [] ∧
      (resolveRecipe db (Except.error e) freshId now query).1.1.appliances = [] ∧
      (resolveRecipe db (Except.error e) freshId now query).1.1.allergyDisclaimer = "" ∧
      (resolveRecipe db (Except.error e) freshId now query).1.2 = [] := by
  intro e
  have hfind : db.find? (fun r => goEqualFold r.title query) = none :=
    List.find?_eq_none.mpr fun r hrm => by simp [hex r hrm]
  have hlt : (bestScan db query).1 < similarityThreshold :=
    bestScan_foldl_lt query db similarityThreshold 0 zeroRecipe
      (by norm_num [similarityThreshold]) hsim
  have hmain : resolveRecipe db (Except.error e) freshId now query =
      ((newRecipe freshId now query [] [] (JVal.obj []) ("") [], []), db) := by
    unfold resolveRecipe
    rw [hfind]
    dsimp only
    rw [if_neg (not_le.mpr hlt)]
  refine ⟨hmain, ?_, ?_, ?_, ?_, ?_, ?_⟩ <;> rw [hmain] <;> rfl

/-- Helper for concrete similarity values: supply the two set cardinalities. -/
lemma jaccard_eval (a b : String) (i u : Nat) (hu : ¬ (u = 0))
    (h1 : ((tokenSet a).filter (fun t => t ∈ tokenSet b)).card = i)
    (h2 : (tokenSet a ∪ tokenSet b).card = u) :
    JaccardSimilarity a b = (i : ℚ) / (u : ℚ) := by
  rw [JaccardSimilarity, h1, h2, if_neg hu]

/-- Witness for C2: the query "spaghetti bolognese" (different case) returns
the first corpus entry unmodified with no alternatives, for an arbitrary
failing generation outcome. -/
theorem resolve_exact_match_witness :
    resolveRecipe corpusEx (Except.error (GenError.transport ("boom"))) ("f-id")
      goZeroTime ("spaghetti bolognese") = ((spagEx, []), corpusEx) :=
  resolve_exact_match (Except.error (GenError.transport ("boom"))) ("f-id")
    goZeroTime ("spaghetti bolognese") [] [chickEx] spagEx
    (by intro x hx; cases hx) (by decide)

/-- Witness for C3: "Salad with chicken" close-matches "Chicken Salad"
(similarity 2/3 ≥ 0.3) and returns it with the marker, no alternatives. -/
theorem resolve_close_match_witness :
    resolveRecipe corpusEx (Except.error (GenError.transport ("boom"))) ("f-id")
      goZeroTime ("Salad with chicken") =
      (({ chickEx with title := chickEx.title ++ " (Close Match)" }, []), corpusEx) := by
  have s1 : JaccardSimilarity ("Salad with chicken") ("Spaghetti Bolognese") =
      (0 : ℚ) / (5 : ℚ) :=
    jaccard_eval ("Salad with chicken") ("Spaghetti Bolognese") 0 5
      (by norm_num) (by decide) (by decide)
  have s2 : JaccardSimilarity ("Salad with chicken") ("Chicken Salad") =
      (2 : ℚ) / (3 : ℚ) :=
    jaccard_eval ("Salad with chicken") ("Chicken Salad") 2 3
      (by norm_num) (by decide) (by decide)
  exact resolve_close_match (Except.error (GenError.transport ("boom"))) ("f-id")
    goZeroTime ("Salad with chicken") [spagEx] [] chickEx
    (by decide)
    (by
      intro r hr
      rw [List.mem_singleton] at hr
      subst hr
      show JaccardSimilarity ("Salad with chicken") ("Spaghetti Bolognese") <
        JaccardSimilarity ("Salad with chicken") ("Chicken Salad")
      rw [s1, s2]; norm_num)
    (by intro r hr; cases hr)
    (by
      show similarityThreshold ≤ JaccardSimilarity ("Salad with chicken") ("Chicken Salad")
      rw [s2]; norm_num [similarityThreshold])

/-- Witness for C1: "chicken noodle soup" matches nothing (best similarity
1/4 < 0.3) and generation fails with an upstream error, so the caller gets
the fallback recipe. -/
theorem resolve_generation_fallback_witness :
    resolveRecipe corpusEx (Except.error (GenError.upstream ("502"))) ("f-id")
      goZeroTime ("chicken noodle soup") =
      ((newRecipe ("f-id") goZeroTime ("chicken noodle soup") [] [] (JVal.obj []) ("") [],
        []), corpusEx) := by
  have s1 : JaccardSimilarity ("chicken noodle soup") ("Spaghetti Bolognese") =
      (0 : ℚ) / (5 : ℚ) :=
    jaccard_eval ("chicken noodle soup") ("Spaghetti Bolognese") 0 5
      (by norm_num) (by decide) (by decide)
  have s2 : JaccardSimilarity ("chicken noodle soup") ("Chicken Salad") =
      (1 : ℚ) / (4 : ℚ) :=
    jaccard_eval ("chicken noodle soup") ("Chicken Salad") 1 4
      (by norm_num) (by decide) (by decide)
  exact (resolve_generation_fallback ("f-id") goZeroTime ("chicken noodle soup")
    corpusEx
    (by decide)
    (by
      intro r hr
      rw [show corpusEx = [spagEx, chickEx] from rfl] at hr
      rcases List.mem_cons.mp hr with h | h
      · subst h
        show JaccardSimilarity ("chicken noodle soup") ("Spaghetti Bolognese") <
          similarityThreshold
        rw [s1]; norm_num [similarityThreshold]
      · rw [List.mem_singleton] at h
        subst h
        show JaccardSimilarity ("chicken noodle soup") ("Chicken Salad") <
          similarityThreshold
        rw [s2]; norm_num [similarityThreshold])
    (GenError.upstream ("502"))).1

/-- C8 helper: no branch of `resolveRecipe` writes the corpus. -/
lemma resolve_db_unchanged (db : List Recipe)
    (gen : Except GenError (GenRecipe × List GenRecipe)) (freshId : String)
    (now : GoTime) (query : String) :
    (resolveRecipe db gen freshId now query).2 = db := by
  unfold resolveRecipe
  cases hf : db.find? (fun r => goEqualFold r.title query) with
  | some r => rfl
  | none =>
    dsimp only
    by_cases hb : (bestScan db query).1 ≥ similarityThreshold
    · rw [if_pos hb]
    · rw [if_neg hb]
      cases gen with
      | error e => rfl
      | ok p => cases p with | mk g alts => rfl

/-- C8. Resolution never mutates the corpus: for every query (and every
generation outcome and fallback effects), the `recipesDB` corpus after
`resolveRecipe` is exactly the corpus before.  In the close-match branch only
the returned copy carries the `" (Close Match)"` suffix (see the close-match
theorem), so every stored entry — its title included — stays pristine. -/
theorem resolve_never_mutates_corpus (id1 id2 : String) (t1 t2 : GoTime)
    (gen : Except GenError (GenRecipe × List GenRecipe)) (freshId : String)
    (now : GoTime) (query : String) :
    (resolveRecipe (recipesDB id1 id2 t1 t2) gen freshId now query).2 =
      recipesDB id1 id2 t1 t2 :=
  resolve_db_unchanged (recipesDB id1 id2 t1 t2) gen freshId now query

/-- C10. `convertGenRecipe` copies id, title, ingredients, steps, nutritional
info, allergy disclaimer and appliances unchanged; each timestamp field takes
the RFC3339 parse when it succeeds, otherwise the bare-date (`2006-01-02`)
parse, and when both fail no error is raised and the field is the zero
timestamp. -/
theorem convert_gen_recipe_fields (r : GenRecipe) :
    ((convertGenRecipe r).id = r.id ∧ (convertGenRecipe r).title = r.title ∧
     (convertGenRecipe r).ingredients = r.ingredients ∧
     (convertGenRecipe r).steps = r.steps ∧
     (convertGenRecipe r).nutritionalInfo = r.nutritionalInfo ∧
     (convertGenRecipe r).allergyDisclaimer = r.allergyDisclaimer ∧
     (convertGenRecipe r).appliances = r.appliances) ∧
    (∀ t, parseRFC3339 r.createdAt = some t → (convertGenRecipe r).createdAt = t) ∧
    (∀ t, parseRFC3339 r.createdAt = none → parseDateOnly r.createdAt = some t →
      (convertGenRecipe r).createdAt = t) ∧
    (parseRFC3339 r.createdAt = none → parseDateOnly r.createdAt = none →
      (convertGenRecipe r).createdAt = goZeroTime) ∧
    (∀ t, parseRFC3339 r.updatedAt = some t → (convertGenRecipe r).updatedAt = t) ∧
    (∀ t, parseRFC3339 r.updatedAt = none → parseDateOnly r.updatedAt = some t →
      (convertGenRecipe r).updatedAt = t) ∧
    (parseRFC3339 r.updatedAt = none → parseDateOnly r.updatedAt = none →
      (convertGenRecipe r).updatedAt = goZeroTime) := by
  refine ⟨⟨rfl, rfl, rfl, rfl, rfl, rfl, rfl⟩, ?_, ?_, ?_, ?_, ?_, ?_⟩
  · intro t h; simp [convertGenRecipe, h]
  · intro t h h2; simp [convertGenRecipe, h, h2]
  · intro h h2; simp [convertGenRecipe, h, h2]
  · intro t h; simp [convertGenRecipe, h]
  · intro t h h2; simp [convertGenRecipe, h, h2]
  · intro h h2; simp [convertGenRecipe, h, h2]

/-- Witness for C10: both layouts fail on both fields of `exGenRecipe`, so the
converted timestamps are the zero time while the title is copied. -/
theorem convert_gen_recipe_fields_witness :
    (convertGenRecipe exGenRecipe).createdAt = goZeroTime ∧
    (convertGenRecipe exGenRecipe).updatedAt = goZeroTime ∧
    (convertGenRecipe exGenRecipe).title = exGenRecipe.title :=
  ⟨(convert_gen_recipe_fields exGenRecipe).2.2.2.1 (by decide) (by decide),
   (convert_gen_recipe_fields exGenRecipe).2.2.2.2.2.2 (by decide) (by decide),
   (convert_gen_recipe_fields exGenRecipe).1.2.1⟩

/-! ## Lemmas about trimming and fence stripping -/

lemma dropWhile_idem (p : Char → Bool) (l : List Char) :
    (l.dropWhile p).dropWhile p = l.dropWhile p := by
  induction l with
  | nil => rfl
  | cons a l ih =>
    by_cases h : p a = true
    · rw [List.dropWhile_cons_of_pos h]; exact ih
    · rw [List.dropWhile_cons_of_neg h, List.dropWhile_cons_of_neg h]

lemma dropWhile_head_false (p : Char → Bool) :
    ∀ (l : List Char) (a : Char) (t : List Char), l.dropWhile p = a :: t → p a = false := by
  intro l
  induction l with
  | nil => intro a t h; cases h
  | cons b l ih =>
    intro a t h
    by_cases hb : p b = true
    · rw [List.dropWhile_cons_of_pos hb] at h
      exact ih a t h
    · rw [List.dropWhile_cons_of_neg hb] at h
      cases h
      simpa using hb

lemma takeWhile_append_dropWhile_eq (p : Char → Bool) (l : List Char) :
    l.takeWhile p ++ l.dropWhile p = l := by
  induction l with
  | nil => rfl
  | cons a l ih =>
    by_cases h : p a = true
    · rw [List.takeWhile_cons_of_pos h, List.dropWhile_cons_of_pos h, List.cons_append, ih]
    · rw [List.takeWhile_cons_of_neg h, List.dropWhile_cons_of_neg h]; rfl

/-- The trimmed list is a prefix of the front-trimmed list. -/
lemma trimChars_prefix_of_drop (cs : List Char) :
    cs.dropWhile goIsSpace =
      trimChars cs ++ ((cs.dropWhile goIsSpace).reverse.takeWhile goIsSpace).reverse := by
  have h := takeWhile_append_dropWhile_eq goIsSpace (cs.dropWhile goIsSpace).reverse
  have h2 := congrArg List.reverse h
  rw [List.reverse_append, List.reverse_reverse] at h2
  exact h2.symm

lemma trimChars_dropWhile_self (cs : List Char) :
    (trimChars cs).dropWhile goIsSpace = trimChars cs := by
  cases hNe : trimChars cs with
  | nil => rfl
  | cons a t =>
    have hj := trimChars_prefix_of_drop cs
    rw [hNe] at hj
    have hpa : goIsSpace a = false :=
      dropWhile_head_false goIsSpace cs a
        (t ++ ((cs.dropWhile goIsSpace).reverse.takeWhile goIsSpace).reverse) hj
    rw [List.dropWhile_cons_of_neg (by simp [hpa])]

lemma trimChars_reverse_dropWhile_self (cs : List Char) :
    (trimChars cs).reverse.dropWhile goIsSpace = (trimChars cs).reverse := by
  unfold trimChars
  rw [List.reverse_reverse]
  exact dropWhile_idem _ _

lemma trimChars_idem (cs : List Char) : trimChars (trimChars cs) = trimChars cs := by
  have h1 := trimChars_dropWhile_self cs
  have h2 := trimChars_reverse_dropWhile_self cs
  unfold trimChars
  unfold trimChars at h1 h2
  rw [h1, h2, List.reverse_reverse]

/-- C9. When the whitespace-trimmed input does not open with a fence marker,
`stripCodeFences` returns exactly the trimmed input. -/
theorem strip_code_fences_passthrough (s : String)
    (h : startsWithFence (trimChars s.toList) = false) :
    stripCodeFences s = goTrimSpace s := by
  unfold stripCodeFences goTrimSpace
  rw [if_neg (by simp [show startsWithFence (trimChars s.data) = false from h]),
    trimChars_idem]

/-- Witness for C9: content with surrounding whitespace and no fence passes
through trimmed. -/
theorem strip_code_fences_passthrough_witness :
    stripCodeFences ("  plain answer\n") = goTrimSpace ("  plain answer\n") :=
  strip_code_fences_passthrough ("  plain answer\n") (by decide)

lemma trimChars_eq_of_ends (cs : List Char) (h1 : cs.dropWhile goIsSpace = cs)
    (h2 : cs.reverse.dropWhile goIsSpace = cs.reverse) : trimChars cs = cs := by
  unfold trimChars
  rw [h1, h2, List.reverse_reverse]

/-- A trim fixpoint is both front- and back-trimmed. -/
lemma trim_eq_self_parts (cs : List Char) (h : trimChars cs = cs) :
    cs.dropWhile goIsSpace = cs ∧ cs.reverse.dropWhile goIsSpace = cs.reverse := by
  have hlen1 : (trimChars cs).length ≤ (cs.dropWhile goIsSpace).length := by
    unfold trimChars
    rw [List.length_reverse]
    calc ((cs.dropWhile goIsSpace).reverse.dropWhile goIsSpace).length
        ≤ (cs.dropWhile goIsSpace).reverse.length := (List.dropWhile_sublist _).length_le
      _ = (cs.dropWhile goIsSpace).length := List.length_reverse _
  have hlen2 : cs.length ≤ (cs.dropWhile goIsSpace).length := by
    have := congrArg List.length h
    omega
  have h1 : cs.dropWhile goIsSpace = cs :=
    (List.dropWhile_sublist _).eq_of_length_le hlen2
  refine ⟨h1, ?_⟩
  have hlen3 : cs.reverse.length ≤ (cs.reverse.dropWhile goIsSpace).length := by
    have hcong := congrArg List.length h
    unfold trimChars at hcong
    rw [h1, List.length_reverse] at hcong
    rw [List.length_reverse]
    omega
  exact (List.dropWhile_sublist _).eq_of_length_le hlen3

lemma lastFenceIdx_append_tail (l : List Char) :
    lastFenceIdx (l ++ ['\n', fenceChar, fenceChar, fenceChar]) = some (l.length + 1) := by
  induction l with
  | nil => rfl
  | cons a l ih =>
    rw [List.cons_append, lastFenceIdx, ih]
    simp

lemma firstIdxOf_json_fence (X : List Char) :
    firstIdxOf ('\n') ([fenceChar, fenceChar, fenceChar, 'j', 's', 'o', 'n', '\n'] ++ X) = some 7 := by
  have hb : (fenceChar == '\n') = false := rfl
  have hj : ('j' == '\n') = false := rfl
  have hs : ('s' == '\n') = false := rfl
  have ho : ('o' == '\n') = false := rfl
  have hn : ('n' == '\n') = false := rfl
  have hnl : ('\n' == '\n') = true := rfl
  simp [firstIdxOf, hb, hj, hs, ho, hn, hnl]

lemma trimChars_append_newline (tc : List Char)
    (h1 : tc.dropWhile goIsSpace = tc)
    (h2 : tc.reverse.dropWhile goIsSpace = tc.reverse) :
    trimChars (tc ++ ['\n']) = tc := by
  cases htc : tc with
  | nil => rfl
  | cons a t =>
    rw [htc] at h1 h2
    have hpa : goIsSpace a = false :=
      dropWhile_head_false goIsSpace (a :: t) a t h1
    have hfront : ((a :: t) ++ ['\n']).dropWhile goIsSpace = (a :: t) ++ ['\n'] := by
      rw [List.cons_append]
      exact List.dropWhile_cons_of_neg (by simp [hpa])
    have hback : ((a :: t) ++ ['\n']).reverse.dropWhile goIsSpace = (a :: t).reverse := by
      rw [List.reverse_append]
      show (('\n') :: (a :: t).reverse).dropWhile goIsSpace = (a :: t).reverse
      rw [List.dropWhile_cons_of_pos (by decide)]
      exact h2
    unfold trimChars
    rw [hfront, hback, List.reverse_reverse]

/-- The general fenced round trip: a fence line, trimmed content, a closing
fence. -/
lemma strip_code_fences_fenced (t : String) (ht : goTrimSpace t = t) :
    stripCodeFences ("```json\n" ++ t ++ "\n```") = t := by
  have htl : trimChars t.toList = t.toList := congrArg String.data ht
  obtain ⟨h1, h2⟩ := trim_eq_self_parts t.toList htl
  have htoList : ("```json\n" ++ t ++ "\n```").toList =
      [fenceChar, fenceChar, fenceChar, 'j', 's', 'o', 'n', '\n'] ++ (t.toList ++ ['\n', fenceChar, fenceChar, fenceChar]) := by
    show ("```json\n".toList ++ t.toList) ++ "\n```".toList = _
    rw [List.append_assoc]
    rfl
  have hfull1 : ([fenceChar, fenceChar, fenceChar, 'j', 's', 'o', 'n', '\n'] ++
      (t.toList ++ ['\n', fenceChar, fenceChar, fenceChar])).dropWhile goIsSpace =
      [fenceChar, fenceChar, fenceChar, 'j', 's', 'o', 'n', '\n'] ++ (t.toList ++ ['\n', fenceChar, fenceChar, fenceChar]) := by
    rw [List.cons_append]
    exact List.dropWhile_cons_of_neg (by decide)
  have hrev : ([fenceChar, fenceChar, fenceChar, 'j', 's', 'o', 'n', '\n'] ++
      (t.toList ++ ['\n', fenceChar, fenceChar, fenceChar])).reverse =
      (fenceChar) :: (([fenceChar, fenceChar, '\n'] ++ t.toList.reverse) ++
        ['\n', 'n', 'o', 's', 'j', fenceChar, fenceChar, fenceChar]) := by
    rw [List.reverse_append, List.reverse_append]
    rfl
  have hfull2 : ([fenceChar, fenceChar, fenceChar, 'j', 's', 'o', 'n', '\n'] ++
      (t.toList ++ ['\n', fenceChar, fenceChar, fenceChar])).reverse.dropWhile goIsSpace =
      ([fenceChar, fenceChar, fenceChar, 'j', 's', 'o', 'n', '\n'] ++
        (t.toList ++ ['\n', fenceChar, fenceChar, fenceChar])).reverse := by
    rw [hrev]
    exact List.dropWhile_cons_of_neg (by decide)
  have htrim : trimChars (("```json\n" ++ t ++ "\n```").toList) =
      [fenceChar, fenceChar, fenceChar, 'j', 's', 'o', 'n', '\n'] ++ (t.toList ++ ['\n', fenceChar, fenceChar, fenceChar]) := by
    rw [htoList]
    exact trimChars_eq_of_ends _ hfull1 hfull2
  unfold stripCodeFences
  rw [htrim]
  rw [if_pos (show startsWithFence ([fenceChar, fenceChar, fenceChar, 'j', 's', 'o', 'n', '\n'] ++
    (t.toList ++ ['\n', fenceChar, fenceChar, fenceChar])) = true from rfl)]
  rw [firstIdxOf_json_fence]
  show String.mk (trimChars (match lastFenceIdx (([fenceChar, fenceChar, fenceChar, 'j', 's', 'o', 'n', '\n'] ++
    (t.toList ++ ['\n', fenceChar, fenceChar, fenceChar])).drop (7 + 1)) with
    | some i => (([fenceChar, fenceChar, fenceChar, 'j', 's', 'o', 'n', '\n'] ++
        (t.toList ++ ['\n', fenceChar, fenceChar, fenceChar])).drop (7 + 1)).take i
    | none => ([fenceChar, fenceChar, fenceChar, 'j', 's', 'o', 'n', '\n'] ++
        (t.toList ++ ['\n', fenceChar, fenceChar, fenceChar])).drop (7 + 1))) = t
  rw [show ([fenceChar, fenceChar, fenceChar, 'j', 's', 'o', 'n', '\n'] ++
    (t.toList ++ ['\n', fenceChar, fenceChar, fenceChar])).drop (7 + 1) = t.toList ++ ['\n', fenceChar, fenceChar, fenceChar]
    from rfl]
  rw [lastFenceIdx_append_tail]
  show String.mk (trimChars ((t.toList ++ ['\n', fenceChar, fenceChar, fenceChar]).take (t.toList.length + 1))) = t
  rw [List.take_append, show (['\n', fenceChar, fenceChar, fenceChar] : List Char).take 1 = ['\n'] from rfl]
  rw [trimChars_append_newline t.toList h1 h2]
  rfl

/-- A fenced chat-completion content around the example envelope. -/
def exFencedContent : String := "```json\n" ++ exEnvelopeJson ++ "\n```"

set_option maxRecDepth 10000 in
/-- C6. Fence stripping trims the input, and on fenced content drops the
fence line and everything from the last fence marker on: for every trimmed
inner text `t`, stripping the fenced form of `t` yields `t` exactly; in
particular the literal placeholder content round-trips, and for a concrete
fenced envelope the stripped text parses as a Generation Envelope. -/
theorem strip_code_fences_contract :
    (∀ t : String, goTrimSpace t = t →
      stripCodeFences ("```json\n" ++ t ++ "\n```") = t) ∧
    stripCodeFences ("```json\n\x7b...\x7d\n```") = "\x7b...\x7d" ∧
    stripCodeFences exFencedContent = exEnvelopeJson ∧
    decodeLLMResponseStrict exEnvelopeJson =
      some { primaryRecipe := exEnvelopeRecipe, alternativeRecipes := [] } := by
  refine ⟨strip_code_fences_fenced, by decide, ?_, ?_⟩
  · exact strip_code_fences_fenced exEnvelopeJson (by decide)
  · rfl

/-- Witness for C6: the general fenced clause at a concrete inner text. -/
theorem strip_code_fences_contract_witness :
    stripCodeFences ("```json\nsome inner text\n```") = "some inner text" :=
  strip_code_fences_contract.1 ("some inner text") (by decide)

/-! ## Claims about the generation client -/

/-- C5. `GenerateRecipe` fails exactly on: missing endpoint configuration;
transport error; non-success status; undecodable response body — including an
empty choices array and, in the chat dialect, a post-strip envelope parse
failure.  On success it returns the envelope's primary recipe and
alternatives.  The final clause is the converse: a success implies the
endpoint was configured, the exchange succeeded, and the status was 200. -/
theorem generate_recipe_error_cases :
    (∀ env http q, env.llmEndpoint = "" →
      GenerateRecipe env http q =
        Except.error (GenError.config ("LLM_ENDPOINT environment variable not set"))) ∧
    (∀ env q e, env.llmEndpoint ≠ "" →
      GenerateRecipe env (Except.error e) q = Except.error (GenError.transport e)) ∧
    (∀ env resp q, env.llmEndpoint ≠ "" → resp.statusCode ≠ 200 →
      GenerateRecipe env (Except.ok resp) q =
        Except.error (GenError.upstream
          ("LLM endpoint returned non-200 status: " ++ resp.status))) ∧
    (∀ env resp q, env.llmEndpoint ≠ "" → resp.statusCode = 200 →
      env.deepseekKey ≠ "" → decodeDeepSeekResponseStream resp.body = none →
      GenerateRecipe env (Except.ok resp) q =
        Except.error (GenError.malformed ("invalid DeepSeek response JSON"))) ∧
    (∀ env resp ds q, env.llmEndpoint ≠ "" → resp.statusCode = 200 →
      env.deepseekKey ≠ "" → decodeDeepSeekResponseStream resp.body = some ds →
      ds.choices = [] →
      GenerateRecipe env (Except.ok resp) q =
        Except.error (GenError.malformed ("no choices in DeepSeek response"))) ∧
    (∀ env resp ds c cs q, env.llmEndpoint ≠ "" → resp.statusCode = 200 →
      env.deepseekKey ≠ "" → decodeDeepSeekResponseStream resp.body = some ds →
      ds.choices = c :: cs →
      decodeLLMResponseStrict (stripCodeFences c.message.content) = none →
      GenerateRecipe env (Except.ok resp) q =
        Except.error (GenError.malformed ("invalid generation envelope JSON"))) ∧
    (∀ env resp ds c cs lr q, env.llmEndpoint ≠ "" → resp.statusCode = 200 →
      env.deepseekKey ≠ "" → decodeDeepSeekResponseStream resp.body = some ds →
      ds.choices = c :: cs →
      decodeLLMResponseStrict (stripCodeFences c.message.content) = some lr →
      GenerateRecipe env (Except.ok resp) q =
        Except.ok (lr.primaryRecipe, lr.alternativeRecipes)) ∧
    (∀ env resp q, env.llmEndpoint ≠ "" → resp.statusCode = 200 →
      env.deepseekKey = "" → decodeLLMResponseStream resp.body = none →
      GenerateRecipe env (Except.ok resp) q =
        Except.error (GenError.malformed ("invalid generation envelope JSON"))) ∧
    (∀ env resp lr q, env.llmEndpoint ≠ "" → resp.statusCode = 200 →
      env.deepseekKey = "" → decodeLLMResponseStream resp.body = some lr →
      GenerateRecipe env (Except.ok resp) q =
        Except.ok (lr.primaryRecipe, lr.alternativeRecipes)) ∧
    (∀ env http q p, GenerateRecipe env http q = Except.ok p →
      env.llmEndpoint ≠ "" ∧ ∃ resp, http = Except.ok resp ∧ resp.statusCode = 200) := by
  refine ⟨?_, ?_, ?_, ?_, ?_, ?_, ?_, ?_, ?_, ?_⟩
  · intro env http q h
    unfold GenerateRecipe
    rw [if_pos h]
  · intro env q e h
    unfold GenerateRecipe
    rw [if_neg h]
  · intro env resp q h h2
    unfold GenerateRecipe
    rw [if_neg h]
    show (if resp.statusCode ≠ 200 then _ else _) = _
    rw [if_pos h2]
  · intro env resp q h h2 h3 h4
    unfold GenerateRecipe
    rw [if_neg h]
    show (if resp.statusCode ≠ 200 then _ else _) = _
    rw [if_neg (by simp [h2]), if_pos h3, h4]
  · intro env resp ds q h h2 h3 h4 h5
    unfold GenerateRecipe
    rw [if_neg h]
    show (if resp.statusCode ≠ 200 then _ else _) = _
    rw [if_neg (by simp [h2]), if_pos h3, h4]
    dsimp only
    rw [h5]
  · intro env resp ds c cs q h h2 h3 h4 h5 h6
    unfold GenerateRecipe
    rw [if_neg h]
    show (if resp.statusCode ≠ 200 then _ else _) = _
    rw [if_neg (by simp [h2]), if_pos h3, h4]
    dsimp only
    rw [h5]
    dsimp only
    rw [h6]
  · intro env resp ds c cs lr q h h2 h3 h4 h5 h6
    unfold GenerateRecipe
    rw [if_neg h]
    show (if resp.statusCode ≠ 200 then _ else _) = _
    rw [if_neg (by simp [h2]), if_pos h3, h4]
    dsimp only
    rw [h5]
    dsimp only
    rw [h6]
  · intro env resp q h h2 h3 h4
    unfold GenerateRecipe
    rw [if_neg h]
    show (if resp.statusCode ≠ 200 then _ else _) = _
    rw [if_neg (by simp [h2]), if_neg (by simp [h3]), h4]
  · intro env resp lr q h h2 h3 h4
    unfold GenerateRecipe
    rw [if_neg h]
    show (if resp.statusCode ≠ 200 then _ else _) = _
    rw [if_neg (by simp [h2]), if_neg (by simp [h3]), h4]
  · intro env http q p h
    by_cases h1 : env.llmEndpoint = ""
    · unfold GenerateRecipe at h
      rw [if_pos h1] at h
      cases h
    · refine ⟨h1, ?_⟩
      cases http with
      | error e =>
        unfold GenerateRecipe at h
        rw [if_neg h1] at h
        simp at h
      | ok resp =>
        refine ⟨resp, rfl, ?_⟩
        by_cases h2 : resp.statusCode ≠ 200
        · have herr : GenerateRecipe env (Except.ok resp) q =
              Except.error (GenError.upstream
                ("LLM endpoint returned non-200 status: " ++ resp.status)) := by
            unfold GenerateRecipe
            rw [if_neg h1]
            show (if resp.statusCode ≠ 200 then _ else _) = _
            rw [if_pos h2]
          rw [herr] at h
          cases h
        · exact not_not.mp h2

/-- Witness for C5: a transport failure on a configured endpoint surfaces as
a transport-tagged generation error. -/
theorem generate_recipe_error_cases_witness :
    GenerateRecipe { llmEndpoint := "http://llm", deepseekKey := "", deepseekModel := "" }
      (Except.error ("dial tcp: i/o timeout")) ("soup") =
      Except.error (GenError.transport ("dial tcp: i/o timeout")) :=
  generate_recipe_error_cases.2.1
    { llmEndpoint := "http://llm", deepseekKey := "", deepseekModel := "" }
    ("soup") ("dial tcp: i/o timeout") (by decide)

end RecipeResolver
